import Mathlib

/-!
Verification of the `dw_pair_conversion` notebook (lang-m/skpm2022).

The notebook's own logic consists of: scalar/vector material constants, a
rectangular region with a uniform cell size, two spatial predicate functions
(`Ms_func`, `init_m`), and a strictly sequential list of calls into external
simulation libraries.  We embed positions as rational triples so that every
definition is executable and every concrete evaluation is decidable.
-/

/-- A spatial position `(x, y, z)`, as unpacked by `x, y, z = p` in the
notebook's predicate functions. -/
abbrev Pos : Type := ℚ × ℚ × ℚ

/-- `Ms = 5.8e5` (A/m), the saturation magnetization constant bound in the
constants cell. -/
def Ms : ℚ := 5.8e5

/-- `A_ex = 15e-12` (J/m), the exchange constant. -/
def A_ex : ℚ := 15e-12

/-- `DMI_D = 3e-3` (J/m^2), the DMI constant. -/
def DMI_D : ℚ := 3e-3

/-- `K = 0.6e6` (J/m^3), the uniaxial anisotropy constant. -/
def K : ℚ := 0.6e6

/-- `u = (0, 0, 1)`, the easy-axis direction. -/
def u : Pos := (0, 0, 1)

/-- `B_z = 100e-3` (T), the applied-field strength. -/
def B_z : ℚ := 100e-3

/-- Embedding of the notebook's saturation-magnetization mask:
```
def Ms_func(p):
    x, y, z = p
    if x > 0 or abs(y) < 20e-9:
        return Ms
    return 0
```
-/
def Ms_func (p : Pos) : ℚ :=
  if p.1 > 0 ∨ |p.2.1| < 20e-9 then Ms else 0

/-- Embedding of the notebook's initial-magnetization direction:
```
def init_m(p):
    x, y, z = p
    if -60e-9 < x < -20e-9:
        return (0, 0, -1)
    return (0, 0, 1)
```
-/
def init_m (p : Pos) : Pos :=
  if -60e-9 < p.1 ∧ p.1 < -20e-9 then (0, 0, -1) else (0, 0, 1)

/-- `region = df.Region(p1=(-100e-9, -50e-9, -10e-9), p2=(200e-9, 50e-9, 0))`:
the lower corner `p1`. -/
def region_p1 : Pos := (-100e-9, -50e-9, -10e-9)

/-- The upper corner `p2` of the region. -/
def region_p2 : Pos := (200e-9, 50e-9, 0)

/-- `mesh = df.Mesh(region=region, cell=(2.5e-9, 2.5e-9, 5e-9))`: the uniform
discretization cell size. -/
def cell : Pos := (2.5e-9, 2.5e-9, 5e-9)

/-- The edge lengths of the region, componentwise `p2 - p1`. -/
def edgeLengths : Pos :=
  (region_p2.1 - region_p1.1, region_p2.2.1 - region_p1.2.1,
   region_p2.2.2 - region_p1.2.2)

/-- C1: `Ms_func` returns the nonzero constant `Ms = 5.8e5` inside the film
footprint (`x > 0` or `|y| < 20e-9`) and `0` outside it (`x ≤ 0` and
`|y| ≥ 20e-9`). -/
theorem ms_func_footprint (x y z : ℚ) :
    (x > 0 ∨ |y| < 20e-9 → Ms_func (x, y, z) = Ms ∧ Ms ≠ 0) ∧
    (x ≤ 0 ∧ |y| ≥ 20e-9 → Ms_func (x, y, z) = 0) := by
  constructor
  · intro h
    refine ⟨?_, by norm_num [Ms]⟩
    simp only [Ms_func, if_pos h]
  · rintro ⟨hx, hy⟩
    have hcond : ¬(x > 0 ∨ |y| < 20e-9) := by
      push_neg
      exact ⟨hx, hy⟩
    simp only [Ms_func, if_neg hcond]

/-- Witness for C1: a point inside the footprint maps to `Ms ≠ 0`, a point
outside maps to `0`. -/
theorem ms_func_footprint_witness :
    (Ms_func (1, 0, 0) = Ms ∧ Ms ≠ 0) ∧ Ms_func (-1, 3e-8, 0) = 0 :=
  ⟨(ms_func_footprint 1 0 0).1 (Or.inl (by norm_num)),
   (ms_func_footprint (-1) 3e-8 0).2 ⟨by norm_num, by
      rw [abs_of_nonneg (by norm_num)]; norm_num⟩⟩

/-- C2: `init_m` returns the reversed easy-axis direction `(0, 0, -1)` when
`-60e-9 < x < -20e-9`, and the forward direction `(0, 0, 1)` for every other
position. -/
theorem init_m_reversal_region (x y z : ℚ) :
    (-60e-9 < x ∧ x < -20e-9 → init_m (x, y, z) = (0, 0, -1)) ∧
    (¬(-60e-9 < x ∧ x < -20e-9) → init_m (x, y, z) = (0, 0, 1)) := by
  constructor
  · intro h
    simp only [init_m, if_pos h]
  · intro h
    simp only [init_m, if_neg h]

/-- Witness for C2: a point in the x-range maps to `(0, 0, -1)`, a point
outside it to `(0, 0, 1)`. -/
theorem init_m_reversal_region_witness :
    init_m (-4e-8, 0, 0) = (0, 0, -1) ∧ init_m (0, 0, 0) = (0, 0, 1) :=
  ⟨(init_m_reversal_region (-4e-8) 0 0).1 (by norm_num),
   (init_m_reversal_region 0 0 0).2 (by norm_num)⟩

/-- C4: the vector returned by `init_m` is a unit vector: its Euclidean
magnitude equals 1 at every position. -/
theorem init_m_unit_norm (p : Pos) :
    Real.sqrt ((((init_m p).1 : ℝ)) ^ 2 + (((init_m p).2.1 : ℝ)) ^ 2 +
      (((init_m p).2.2 : ℝ)) ^ 2) = 1 := by
  rcases p with ⟨x, y, z⟩
  unfold init_m
  split <;> norm_num

/-- C5: for every input triple, `Ms_func` and `init_m` return a value through
one of their two normal return branches; no error branch exists in either
function. -/
theorem predicates_total (p : Pos) :
    (Ms_func p = Ms ∨ Ms_func p = 0) ∧
    (init_m p = (0, 0, -1) ∨ init_m p = (0, 0, 1)) := by
  rcases p with ⟨x, y, z⟩
  unfold Ms_func init_m
  constructor <;> split <;> simp

/-- C7: the cell size `(2.5e-9, 2.5e-9, 5e-9)` exactly tiles the region from
`p1 = (-100e-9, -50e-9, -10e-9)` to `p2 = (200e-9, 50e-9, 0)`: the edge
lengths are `(300e-9, 100e-9, 10e-9)`, integer multiples `120 × 40 × 2` of
the cell edges. -/
theorem cell_tiles_region :
    edgeLengths = (300e-9, 100e-9, 10e-9) ∧
    edgeLengths.1 = 120 * cell.1 ∧
    edgeLengths.2.1 = 40 * cell.2.1 ∧
    edgeLengths.2.2 = 2 * cell.2.2 := by
  refine ⟨?_, ?_, ?_, ?_⟩ <;>
    norm_num [edgeLengths, region_p1, region_p2, cell, Prod.ext_iff]

/-- C9: both predicates use strict comparisons at their boundaries: at
`x = -60e-9` and at `x = -20e-9`, `init_m` returns the forward direction
`(0, 0, 1)`; and for `x ≤ 0` with `|y|` exactly `20e-9`, `Ms_func` returns
`0`. -/
theorem boundary_strictness (y z : ℚ) :
    init_m (-60e-9, y, z) = (0, 0, 1) ∧
    init_m (-20e-9, y, z) = (0, 0, 1) ∧
    (∀ x : ℚ, x ≤ 0 →
      Ms_func (x, 20e-9, z) = 0 ∧ Ms_func (x, -20e-9, z) = 0) := by
  refine ⟨?_, ?_, ?_⟩
  · unfold init_m
    rw [if_neg]
    norm_num
  · unfold init_m
    rw [if_neg]
    norm_num
  · intro x hx
    constructor
    · unfold Ms_func
      rw [if_neg]
      push_neg
      refine ⟨hx, ?_⟩
      rw [abs_of_nonneg (by norm_num : (0:ℚ) ≤ 20e-9)]
    · unfold Ms_func
      rw [if_neg]
      push_neg
      refine ⟨hx, ?_⟩
      rw [abs_of_nonpos (by norm_num : (-20e-9:ℚ) ≤ 0)]
      norm_num

/-- Witness for C9: the boundary behaviour at concrete positions. -/
theorem boundary_strictness_witness :
    init_m (-60e-9, 0, 0) = (0, 0, 1) ∧
    Ms_func (0, 20e-9, 0) = 0 ∧ Ms_func (0, -20e-9, 0) = 0 :=
  ⟨(boundary_strictness 0 0).1,
   ((boundary_strictness 0 0).2.2 0 le_rfl).1,
   ((boundary_strictness 0 0).2.2 0 le_rfl).2⟩

/-- C10: `init_m` is independent of the `y` and `z` components of its input,
and `Ms_func` is independent of the `z` component of its input. -/
theorem component_independence :
    (∀ x y y' z z' : ℚ, init_m (x, y, z) = init_m (x, y', z')) ∧
    (∀ x y z z' : ℚ, Ms_func (x, y, z) = Ms_func (x, y, z')) := by
  constructor
  · intro x y y' z z'
    unfold init_m
    rfl
  · intro x y z z'
    unfold Ms_func
    rfl

/-- The material/model constants bound once in the notebook's constants cell. -/
structure MaterialParams where
  Ms : ℚ
  A_ex : ℚ
  DMI_D : ℚ
  K : ℚ
  u : Pos
  B_z : ℚ
deriving DecidableEq

/-- The parameters given to the dynamics terms in
`system.dynamics = mm.Precession(gamma0=mm.consts.gamma0) + mm.Damping(alpha=0.3)
+ mm.ZhangLi(u=300, beta=0.5)`. -/
structure DynamicsParams where
  gamma0 : ℚ
  alpha : ℚ
  zhangli_u : ℚ
  zhangli_beta : ℚ
deriving DecidableEq

/-- Modelled from the spec: `mm.consts.gamma0` is a constant supplied by the
external modelling library (the notebook's text gives the gyrotropic ratio
`2.211e5`); its exact value plays no role in any claim. -/
def gamma0 : ℚ := 2.211e5

/-- The values of the constants cell, as bound in the notebook. -/
def notebookParams : MaterialParams := ⟨Ms, A_ex, DMI_D, K, u, B_z⟩

/-- The dynamics-term parameters as bound in the dynamics cell. -/
def notebookDynamics : DynamicsParams := ⟨gamma0, 0.3, 300, 0.5⟩

/-- The external driver and post-processing/imaging routines the notebook
invokes: `md.drive` (energy minimizer), `td.drive` (time-stepper),
`mdata.Data` (trajectory-data load), `mag2exp.mfm.phase_shift`,
`mag2exp.x_ray.holography`, and `mag2exp.quick_plots.ltem_defocus`. -/
inductive ExtCall where
  | minDrive
  | timeDrive
  | dataLoad
  | mfmPhaseShift
  | holography
  | ltemDefocus
deriving DecidableEq

/-- The state-changing operations of the notebook's code cells, in the order
the cells appear.  Display-only cells are `plot`. -/
inductive Step where
  | createSystem
  | bindConstants
  | setEnergy
  | buildMesh
  | setInitialM
  | plot
  | driveMin
  | setDynamics
  | driveTime
  | loadData
  | padField
  | mfmPhaseShift
  | setSubregions
  | holography
  | ltemDefocus
  | rotateField
deriving DecidableEq

/-- The state the notebook's own code manipulates: the bound constants, the
mesh, the `system` object's fields, and the log of external invocations. -/
structure SystemState where
  name : String
  energySet : Bool
  mSet : Bool
  dynamics : Option DynamicsParams
deriving DecidableEq

/-- The whole run state of the notebook. -/
structure RunState where
  params : Option MaterialParams
  meshSet : Bool
  system : SystemState
  calls : List ExtCall
deriving DecidableEq

/-- Which external invocation a step performs, if any. -/
def extCallOf : Step → Option ExtCall
  | .driveMin => some .minDrive
  | .driveTime => some .timeDrive
  | .loadData => some .dataLoad
  | .mfmPhaseShift => some .mfmPhaseShift
  | .holography => some .holography
  | .ltemDefocus => some .ltemDefocus
  | _ => none

/-- The effect of one code cell on the run state. -/
def step (s : Step) (st : RunState) : RunState :=
  match s with
  | .createSystem =>
      { st with system := { st.system with name := "dw_pair_conversion" } }
  | .bindConstants => { st with params := some notebookParams }
  | .setEnergy => { st with system := { st.system with energySet := true } }
  | .buildMesh => { st with meshSet := true }
  | .setInitialM => { st with system := { st.system with mSet := true } }
  | .setDynamics =>
      { st with system := { st.system with dynamics := some notebookDynamics } }
  | .plot => st
  | .padField => st
  | .setSubregions => st
  | .rotateField => st
  | .driveMin => { st with calls := st.calls ++ [.minDrive] }
  | .driveTime => { st with calls := st.calls ++ [.timeDrive] }
  | .loadData => { st with calls := st.calls ++ [.dataLoad] }
  | .mfmPhaseShift => { st with calls := st.calls ++ [.mfmPhaseShift] }
  | .holography => { st with calls := st.calls ++ [.holography] }
  | .ltemDefocus => { st with calls := st.calls ++ [.ltemDefocus] }

/-- The notebook's code cells, in execution order (imports and display-setup
cells have no state effect and are omitted; display cells are `plot`). -/
def notebookSteps : List Step :=
  [.createSystem, .bindConstants, .setEnergy, .plot, .buildMesh, .plot, .plot,
   .setInitialM, .plot, .driveMin, .plot, .plot, .setDynamics, .driveTime,
   .plot, .loadData, .plot, .plot, .driveMin, .plot, .padField, .plot,
   .mfmPhaseShift, .setSubregions, .plot, .holography, .plot, .holography,
   .plot, .ltemDefocus, .plot, .rotateField, .ltemDefocus]

/-- The state before the first cell runs. -/
def initState : RunState := ⟨none, false, ⟨"", false, false, none⟩, []⟩

/-- The state after the whole notebook has run. -/
def runNotebook : RunState := notebookSteps.foldl (fun st s => step s st) initState

/-- The sequence of external invocations the run performs, in order. -/
def driverCalls : List ExtCall := notebookSteps.filterMap extCallOf

/-- Whether an external call is one of the two solver drivers. -/
def isDriver : ExtCall → Bool
  | .minDrive => true
  | .timeDrive => true
  | _ => false

/-- Whether an external call is a post-processing/imaging routine. -/
def isImaging : ExtCall → Bool
  | .mfmPhaseShift => true
  | .holography => true
  | .ltemDefocus => true
  | _ => false

/-- Counterexample to C3: the energy minimizer is invoked twice, not once, and
its second invocation comes after the time-stepper (and after the
trajectory-data load) has already run. -/
theorem driver_order_counterexample :
    driverCalls.count ExtCall.minDrive = 2 ∧
    ¬ driverCalls.count ExtCall.minDrive = 1 ∧
    (∃ i j : Fin driverCalls.length, i < j ∧
      driverCalls.get i = ExtCall.timeDrive ∧
      driverCalls.get j = ExtCall.minDrive) := by
  decide

/-- C3 amended: the run invokes the minimizer, then the time-stepper, then the
trajectory-data load, then the minimizer a second time; from the first imaging
invocation onward no driver is invoked again. -/
theorem driver_order_amended :
    driverCalls.filter isDriver =
      [ExtCall.minDrive, ExtCall.timeDrive, ExtCall.minDrive] ∧
    driverCalls.takeWhile (fun c => isDriver c ∨ c = ExtCall.dataLoad) =
      [ExtCall.minDrive, ExtCall.timeDrive, ExtCall.dataLoad,
       ExtCall.minDrive] ∧
    ((driverCalls.dropWhile fun c => !(isImaging c)).all fun c =>
      !(isDriver c)) = true := by
  refine ⟨by decide, by decide, by decide⟩

/-- `Ms_func` with its read of the global constants made explicit: the
function receives the bound globals and returns them untouched alongside its
result. -/
def Ms_func_st (g : MaterialParams) (p : Pos) : ℚ × MaterialParams :=
  (if p.1 > 0 ∨ |p.2.1| < 20e-9 then g.Ms else 0, g)

/-- `init_m` with the global environment made explicit; it reads no global and
returns the environment untouched. -/
def init_m_st (g : MaterialParams) (p : Pos) : Pos × MaterialParams :=
  (if -60e-9 < p.1 ∧ p.1 < -20e-9 then (0, 0, -1) else (0, 0, 1), g)

/-- A second global environment sharing only the value of `Ms` with the
notebook's, to exhibit that `Ms_func` depends on no other global. -/
def altParams : MaterialParams := ⟨Ms, 0, 0, 0, (0, 0, 0), 0⟩

/-- C6: `Ms_func` and `init_m` are pure and deterministic: two evaluations at
the same position under globals agreeing on `Ms` return equal results, no
evaluation modifies the global state, and under the notebook's globals the
state-passing versions agree with the direct definitions. -/
theorem predicates_pure :
    (∀ (g g' : MaterialParams) (p : Pos), g.Ms = g'.Ms →
      (Ms_func_st g p).1 = (Ms_func_st g' p).1) ∧
    (∀ (g : MaterialParams) (p : Pos),
      (Ms_func_st g p).2 = g ∧ (init_m_st g p).2 = g) ∧
    (∀ (g g' : MaterialParams) (p : Pos),
      (init_m_st g p).1 = (init_m_st g' p).1) ∧
    (∀ p : Pos, (Ms_func_st notebookParams p).1 = Ms_func p ∧
      (init_m_st notebookParams p).1 = init_m p) := by
  refine ⟨?_, ?_, ?_, ?_⟩
  · intro g g' p h
    simp only [Ms_func_st]
    split <;> simp [h]
  · intro g p
    exact ⟨rfl, rfl⟩
  · intro g g' p
    rfl
  · intro p
    exact ⟨rfl, rfl⟩

/-- Witness for C6: two distinct global environments agreeing on `Ms` give the
same `Ms_func` result at a concrete position. -/
theorem predicates_pure_witness :
    (Ms_func_st notebookParams (1, 0, 0)).1 =
      (Ms_func_st altParams (1, 0, 0)).1 :=
  predicates_pure.1 notebookParams altParams (1, 0, 0) rfl

/-- C8: the constants cell executes exactly once and the dynamics cell
exactly once; no step other than the constants cell changes the bound
constants, no step other than the dynamics cell changes the dynamics-term
parameters, and at the end of the run both hold their originally bound
values. -/
theorem params_single_binding :
    notebookSteps.count Step.bindConstants = 1 ∧
    notebookSteps.count Step.setDynamics = 1 ∧
    (∀ s : Step, s ≠ Step.bindConstants →
      ∀ st : RunState, (step s st).params = st.params) ∧
    (∀ s : Step, s ≠ Step.setDynamics →
      ∀ st : RunState, (step s st).system.dynamics = st.system.dynamics) ∧
    runNotebook.params = some notebookParams ∧
    runNotebook.system.dynamics = some notebookDynamics := by
  refine ⟨by decide, by decide, ?_, ?_, rfl, rfl⟩
  · intro s hs st
    cases s <;> first | rfl | exact absurd rfl hs
  · intro s hs st
    cases s <;> first | rfl | exact absurd rfl hs

/-- Witness for C8: a later cell (a plot, a driver invocation) leaves the
constants and the dynamics parameters of a concrete state unchanged. -/
theorem params_single_binding_witness :
    (step Step.driveMin runNotebook).params = runNotebook.params ∧
    (step Step.plot runNotebook).system.dynamics =
      runNotebook.system.dynamics :=
  ⟨params_single_binding.2.2.1 Step.driveMin (by decide) runNotebook,
   params_single_binding.2.2.2.1 Step.plot (by decide) runNotebook⟩
